import Mathlib

/-!
Shallow embedding of source/bsd/kqueue_event_loop.c (the BSD kqueue
implementation of the aws-c-io event loop) together with theorems that
settle the specification claims about it.

Machine integers from the C source are embedded as Nat/Int.  All arithmetic
performed by the modelled code paths (timeout computation, bit masks,
reference counts) stays far below 2^64, so no explicit wrap-around is needed;
the one place where the source itself guards against overflow (the
LONG_MAX clamp of the kevent timeout) is embedded explicitly.
-/

namespace KqueueLoop

/-- Lifecycle states of the event thread, from enum event_thread_state. -/
inductive EventThreadState where
  | readyToRun
  | running
  | stopping
  deriving DecidableEq

/-- Task status values passed to task callbacks (enum aws_task_status of
aws-c-common, an external dependency whose contract the source consumes). -/
inductive TaskStatus where
  | runReady
  | canceled
  deriving DecidableEq

/-- Modelled from the spec: event-type bit flag AWS_IO_EVENT_TYPE_READABLE from
the aws/io/event_loop.h header of this repository, which is not under src/.
The spec only requires the four event types to be distinct bits of one
bitmask; the numeric values follow the header this source file includes. -/
def AWS_IO_EVENT_TYPE_READABLE : Nat := 1

/-- Modelled from the spec: bit flag AWS_IO_EVENT_TYPE_WRITABLE (see
AWS_IO_EVENT_TYPE_READABLE). -/
def AWS_IO_EVENT_TYPE_WRITABLE : Nat := 2

/-- Modelled from the spec: bit flag AWS_IO_EVENT_TYPE_CLOSED (see
AWS_IO_EVENT_TYPE_READABLE). -/
def AWS_IO_EVENT_TYPE_CLOSED : Nat := 8

/-- Modelled from the spec: bit flag AWS_IO_EVENT_TYPE_ERROR (see
AWS_IO_EVENT_TYPE_READABLE). -/
def AWS_IO_EVENT_TYPE_ERROR : Nat := 16

/-- EV_ERROR kevent flag bit, from the system header sys/event.h. -/
def EV_ERROR : Nat := 0x4000

/-- EV_EOF kevent flag bit, from the system header sys/event.h. -/
def EV_EOF : Nat := 0x8000

/-- EVFILT_READ filter identifier, from the system header sys/event.h. -/
def EVFILT_READ : Int := -1

/-- EVFILT_WRITE filter identifier, from the system header sys/event.h. -/
def EVFILT_WRITE : Int := -2

/-- AWS_OP_SUCCESS return code of aws-c-common. -/
def AWS_OP_SUCCESS : Int := 0

/-- AWS_OP_ERR return code of aws-c-common. -/
def AWS_OP_ERR : Int := -1

/-- DEFAULT_TIMEOUT_SEC from the anonymous enum in kqueue_event_loop.c. -/
def DEFAULT_TIMEOUT_SEC : Nat := 100

/-- LONG_MAX for the LP64 platforms this file targets (limits.h). -/
def LONG_MAX : Nat := 2 ^ 63 - 1

/-- A struct kevent, with the fields the source reads: ident (the fd the
event is about), filter, flags, data (payload / receipt error code) and
udata (a pointer in C, embedded as a Nat identifying the handle_data). -/
structure KEvent where
  ident : Nat
  filter : Int
  flags : Nat
  data : Int
  udata : Nat
  deriving DecidableEq

/-- Translation of a kernel event into aws event flags; embeds
s_aws_event_flags_from_kevent (kqueue_event_loop.c lines 669-693). -/
def s_aws_event_flags_from_kevent (kev : KEvent) : Nat :=
  if kev.flags &&& EV_ERROR ≠ 0 then
    AWS_IO_EVENT_TYPE_ERROR
  else if kev.filter = EVFILT_READ then
    (if kev.data ≠ 0 then AWS_IO_EVENT_TYPE_READABLE else 0) |||
      (if kev.flags &&& EV_EOF ≠ 0 then AWS_IO_EVENT_TYPE_CLOSED else 0)
  else if kev.filter = EVFILT_WRITE then
    (if kev.data ≠ 0 then AWS_IO_EVENT_TYPE_WRITABLE else 0) |||
      (if kev.flags &&& EV_EOF ≠ 0 then AWS_IO_EVENT_TYPE_CLOSED else 0)
  else
    0

/-- A struct timespec as handed to kevent(): seconds and nanoseconds. -/
structure Timespec where
  tv_sec : Nat
  tv_nsec : Nat
  deriving DecidableEq

/-- Contract of the external aws-c-common helper aws_timestamp_convert as the
source invokes it (line 805): split a nanosecond count into whole seconds
and the nanosecond remainder. -/
def aws_timestamp_convert (timeout_ns : Nat) : Nat × Nat :=
  (timeout_ns / 1000000000, timeout_ns % 1000000000)

/-- Timeout computation at the end of each main-loop iteration; embeds
kqueue_event_loop.c lines 783-815.  clockErr models the failure of the
second clock read (line 787); hasTasks models the return value of
aws_task_scheduler_has_tasks, and next_run_time_ns its out-parameter. -/
def compute_next_timeout (clockErr : Bool) (hasTasks : Bool)
    (next_run_time_ns now_ns : Nat) : Timespec :=
  if clockErr || !hasTasks then
    ⟨DEFAULT_TIMEOUT_SEC, 0⟩
  else
    let timeout_ns := if next_run_time_ns > now_ns then next_run_time_ns - now_ns else 0
    let conv := aws_timestamp_convert timeout_ns
    if conv.1 > LONG_MAX then ⟨LONG_MAX, 0⟩ else ⟨conv.1, conv.2⟩

/-- The two lifecycle-state copies: cross_thread_data.state (the inbox copy)
and thread_data.state (the thread-private copy). -/
structure LoopStates where
  cross_state : EventThreadState
  thread_state : EventThreadState
  deriving DecidableEq

/-- Outcome of s_run: the asserts at lines 306-307 abort when the loop is not
ready (assertFailed); a failed aws_thread_launch restores the inbox state and
returns AWS_OP_ERR (spawnFailed, carrying the resulting state copies);
success carries the state copies as they were when aws_thread_launch was
called and as s_run leaves them. -/
inductive RunOutcome where
  | assertFailed
  | spawnFailed (states : LoopStates)
  | success (statesAtSpawn : LoopStates) (states : LoopStates)
  deriving DecidableEq

/-- The two state copies at the moment s_run reaches aws_thread_launch
(line 313), i.e. after the single write at line 311. -/
def s_run_states_at_spawn (st : LoopStates) : LoopStates :=
  { st with cross_state := EventThreadState.running }

/-- Embeds s_run (kqueue_event_loop.c lines 302-323).  spawnFails models the
return value of aws_thread_launch. -/
def s_run (st : LoopStates) (spawnFails : Bool) : RunOutcome :=
  if st.cross_state = EventThreadState.readyToRun ∧
      st.thread_state = EventThreadState.readyToRun then
    if spawnFails then
      RunOutcome.spawnFailed
        { s_run_states_at_spawn st with cross_state := EventThreadState.readyToRun }
    else
      RunOutcome.success (s_run_states_at_spawn st) (s_run_states_at_spawn st)
  else
    RunOutcome.assertFailed

/-- The cross_thread_data struct of kqueue_loop (tasks represented by ids). -/
structure CrossThreadData where
  thread_signaled : Bool
  tasks_to_schedule : List Nat
  state : EventThreadState
  deriving DecidableEq

/-- Observable outcome of s_stop: the inbox afterwards, whether the signal
pipe was written, and the return code. -/
structure StopResult where
  cross : CrossThreadData
  pipe_written : Bool
  ret : Int
  deriving DecidableEq

/-- Embeds s_stop (kqueue_event_loop.c lines 336-356). -/
def s_stop (c : CrossThreadData) : StopResult :=
  if c.state = EventThreadState.running then
    { cross := { c with state := EventThreadState.stopping, thread_signaled := true },
      pipe_written := !c.thread_signaled,
      ret := AWS_OP_SUCCESS }
  else
    { cross := c, pipe_written := false, ret := AWS_OP_SUCCESS }

/-- The kqueue filters a subscription can register. -/
inductive Filter where
  | read
  | write
  deriving DecidableEq

/-- The change list built from handle_data->events_subscribed: one entry per
requested filter, readable first (kqueue_event_loop.c lines 449-468; the
unsubscribe task builds the same list at lines 578-597). -/
def changelist_filters (events_subscribed : Nat) : List Filter :=
  (if events_subscribed &&& AWS_IO_EVENT_TYPE_READABLE ≠ 0 then [Filter.read] else []) ++
    (if events_subscribed &&& AWS_IO_EVENT_TYPE_WRITABLE ≠ 0 then [Filter.write] else [])

/-- Filters of the changelist entries whose EV_RECEIPT result carries a zero
error payload, i.e. whose registration succeeded (the data == 0 test of
kqueue_event_loop.c lines 488 and 502). -/
def succeeded_filters (changelist : List Filter) (receipts : List Int) : List Filter :=
  ((changelist.zip receipts).filter fun p => p.2 = 0).map Prod.fst

/-- Observable effects of one run of the subscribe task. -/
structure SubscribeTaskEffects where
  connected_handle_count_delta : Int
  deletes : List Filter
  kevent_added_successfully : Bool
  callbacks : List Nat
  deriving DecidableEq

/-- Embeds s_subscribe_task (kqueue_event_loop.c lines 428-520).
kernelReceipts models the kevent() call of line 471: none is the -1 return
(whole submission failed, num_events is -1 so the rollback loop at line 501
runs zero times), some rs are the EV_RECEIPT results, rs listing each
receipt's data field in changelist order.  prev_added is the value
handle_data->kevent_added_successfully had before the task ran (the cancelled
path leaves it untouched). -/
def s_subscribe_task (status : TaskStatus) (events_subscribed : Nat)
    (prev_added : Bool) (kernelReceipts : Option (List Int)) : SubscribeTaskEffects :=
  if status = TaskStatus.canceled then
    { connected_handle_count_delta := 1, deletes := [],
      kevent_added_successfully := prev_added, callbacks := [] }
  else
    match kernelReceipts with
    | none =>
      { connected_handle_count_delta := 1, deletes := [],
        kevent_added_successfully := false, callbacks := [AWS_IO_EVENT_TYPE_ERROR] }
    | some receipts =>
      if receipts.all fun d => d = 0 then
        { connected_handle_count_delta := 1, deletes := [],
          kevent_added_successfully := true, callbacks := [] }
      else
        { connected_handle_count_delta := 1,
          deletes := succeeded_filters (changelist_filters events_subscribed) receipts,
          kevent_added_successfully := false, callbacks := [AWS_IO_EVENT_TYPE_ERROR] }

/-- Observable effects of one run of the unsubscribe task. -/
structure UnsubscribeTaskEffects where
  connected_handle_count_delta : Int
  deletes : List Filter
  freed : Bool
  deriving DecidableEq

/-- Embeds s_unsubscribe_task (kqueue_event_loop.c lines 566-605). -/
def s_unsubscribe_task (status : TaskStatus) (events_subscribed : Nat)
    (kevent_added_successfully : Bool) : UnsubscribeTaskEffects :=
  { connected_handle_count_delta := -1,
    deletes :=
      if status = TaskStatus.runReady ∧ kevent_added_successfully then
        changelist_filters events_subscribed
      else [],
    freed := true }

/-- An aws_io_handle: its fd and the additional_data pointer, embedded as an
optional identifier of the attached handle_data record. -/
structure IoHandle where
  fd : Int
  additional_data : Option Nat
  deriving DecidableEq

/-- Observable outcome of s_unsubscribe_from_io_events on the caller's
thread: the handle afterwards, the handle_data ids whose unsubscribe task was
scheduled (scheduled, not yet run), the event callbacks invoked during the
call itself, and the return code. -/
structure UnsubscribeCall where
  handle : IoHandle
  scheduled_unsubscribe_tasks : List Nat
  callbacks_run : List Nat
  ret : Int
  deriving DecidableEq

/-- Embeds s_unsubscribe_from_io_events (kqueue_event_loop.c lines 607-616).
none models the assert(handle->additional_data) failing. -/
def s_unsubscribe_from_io_events (handle : IoHandle) : Option UnsubscribeCall :=
  match handle.additional_data with
  | none => none
  | some hd =>
    some { handle := { handle with additional_data := none },
           scheduled_unsubscribe_tasks := [hd],
           callbacks_run := [],
           ret := AWS_OP_SUCCESS }

/-- Observable outcome of s_subscribe_to_io_events: the handle afterwards,
the handle_data ids whose subscribe task was scheduled, and the return
code. -/
structure SubscribeCall where
  handle : IoHandle
  scheduled_subscribe_tasks : List Nat
  ret : Int
  deriving DecidableEq

/-- Embeds s_subscribe_to_io_events (kqueue_event_loop.c lines 522-564).
none models a failing assert (lines 529-534); allocFails models
aws_mem_acquire returning NULL; newHd stands for the address of the freshly
allocated handle_data record. -/
def s_subscribe_to_io_events (handle : IoHandle) (events : Nat) (allocFails : Bool)
    (newHd : Nat) : Option SubscribeCall :=
  if handle.fd ≠ -1 ∧ handle.additional_data = none ∧
      events &&& (AWS_IO_EVENT_TYPE_READABLE ||| AWS_IO_EVENT_TYPE_WRITABLE) ≠ 0 then
    if allocFails then
      some { handle := handle, scheduled_subscribe_tasks := [], ret := AWS_OP_ERR }
    else
      some { handle := { handle with additional_data := some newHd },
             scheduled_subscribe_tasks := [newHd], ret := AWS_OP_SUCCESS }
  else
    none

/-- A task as seen by s_destroy: its identity and the tasks its callback
schedules onto the event loop when it is invoked with the cancellation
status (such tasks land in cross_thread_data.tasks_to_schedule, since the
event thread is already joined). -/
inductive DTask where
  | mk (id : Nat) (spawns : List DTask)

/-- Identity of a destroy-time task. -/
def DTask.id : DTask → Nat
  | .mk i _ => i

/-- Tasks a destroy-time task schedules when its callback is invoked. -/
def DTask.spawns : DTask → List DTask
  | .mk _ s => s

/-- Total number of tasks in a forest of destroy-time tasks, counting the
tasks every callback will transitively schedule. -/
def forestSize : List DTask → Nat
  | [] => 0
  | DTask.mk _ s :: rest => 1 + forestSize s + forestSize rest

/-- Identities of every task in a forest, the transitively scheduled ones
included. -/
def allIds : List DTask → List Nat
  | [] => []
  | DTask.mk i s :: rest => i :: (allIds s ++ allIds rest)

/-- The while loop of s_destroy (kqueue_event_loop.c lines 264-268): pop the
front of tasks_to_schedule and invoke the task with the cancellation status;
tasks the callback schedules are pushed at the back and drained too.
Returns the identities in callback-invocation order. -/
def drainInbox : List DTask → List Nat
  | [] => []
  | t :: rest => t.id :: drainInbox (rest ++ t.spawns)
termination_by l => forestSize l
decreasing_by
  have happ : ∀ l₁ l₂ : List DTask, forestSize (l₁ ++ l₂) = forestSize l₁ + forestSize l₂ := by
    intro l₁ l₂
    induction l₁ with
    | nil => simp [forestSize]
    | cons t₁ rest₁ ih =>
      cases t₁ with
      | mk i s => simp [forestSize, ih]; omega
  cases t with
  | mk i s => simp [happ, forestSize, DTask.spawns]; omega

/-- Contract of the external aws_task_scheduler_clean_up (line 262): every
task held by the scheduler is invoked with the cancellation status, in
order.  These are the identities invoked. -/
def cancel_all_ids : List DTask → List Nat
  | [] => []
  | t :: rest => t.id :: cancel_all_ids rest

/-- Tasks that the cancelled scheduler tasks schedule during
aws_task_scheduler_clean_up; they are appended to
cross_thread_data.tasks_to_schedule in invocation order. -/
def cancel_all_spawns : List DTask → List DTask
  | [] => []
  | t :: rest => t.spawns ++ cancel_all_spawns rest

/-- Events in the trace of one s_destroy call. -/
inductive DestroyEvent where
  | stopCalled
  | waitCalled
  | cancelAllStart
  | inboxDrainStart
  | callback (id : Nat) (status : TaskStatus)
  deriving DecidableEq

/-- Embeds s_destroy (kqueue_event_loop.c lines 248-300) as the trace of its
observable steps, given the tasks held by the scheduler and the tasks
pending in the inbox when it is called.  joinFails models
s_wait_for_stop_completion returning an error (the early return at
line 256). -/
def s_destroy (sched inbox : List DTask) (joinFails : Bool) : List DestroyEvent :=
  if joinFails then
    [DestroyEvent.stopCalled, DestroyEvent.waitCalled]
  else
    [DestroyEvent.stopCalled, DestroyEvent.waitCalled, DestroyEvent.cancelAllStart] ++
      (cancel_all_ids sched).map (fun i => DestroyEvent.callback i TaskStatus.canceled) ++
      DestroyEvent.inboxDrainStart ::
        (drainInbox (inbox ++ cancel_all_spawns sched)).map
          (fun i => DestroyEvent.callback i TaskStatus.canceled)

/-- State the kevent-scanning loop of s_event_thread_main threads through its
iterations: the events_this_loop accumulator of every handle_data (indexed by
the handle_data identity that kevent udata points at), the io_handle_events
buffer of distinct handles seen so far, and the
should_process_cross_thread_data flag. -/
structure ScanState where
  events_this_loop : Nat → Nat
  io_handle_events : List Nat
  should_process_cross_thread_data : Bool

/-- The kevent-scanning loop of s_event_thread_main (kqueue_event_loop.c
lines 735-762): signal-pipe events only set the cross-thread flag; other
events are translated, empty translations are skipped, a handle whose
accumulator is still empty is appended to io_handle_events, and the
translated flags are ORed into the accumulator. -/
def scan_kevents (pipeFd : Nat) : List KEvent → ScanState → ScanState
  | [], st => st
  | kev :: rest, st =>
    if kev.ident = pipeFd then
      scan_kevents pipeFd rest { st with should_process_cross_thread_data := true }
    else
      let event_flags := s_aws_event_flags_from_kevent kev
      if event_flags = 0 then
        scan_kevents pipeFd rest st
      else
        scan_kevents pipeFd rest
          { st with
            io_handle_events :=
              if st.events_this_loop kev.udata = 0 then st.io_handle_events ++ [kev.udata]
              else st.io_handle_events,
            events_this_loop := fun h =>
              if h = kev.udata then st.events_this_loop h ||| event_flags
              else st.events_this_loop h }

/-- The callback loop of s_event_thread_main (kqueue_event_loop.c lines
765-770): each handle in io_handle_events receives one on_event call
carrying its accumulated flags, and its accumulator is reset to zero right
after the call returns.  Returns the (handle, flags) invocations in order
and the accumulator map afterwards. -/
def run_callbacks : (Nat → Nat) → List Nat → List (Nat × Nat) × (Nat → Nat)
  | acc, [] => ([], acc)
  | acc, h :: rest =>
    let r := run_callbacks (fun x => if x = h then 0 else acc x) rest
    ((h, acc h) :: r.1, r.2)

/-- One main-loop iteration's event handling (scan then callbacks), given the
kevents returned by the kernel and the accumulator state entering the
iteration: the on_event invocations it performs and the accumulator map it
leaves behind. -/
def loop_iteration (pipeFd : Nat) (kevents : List KEvent) (acc0 : Nat → Nat) :
    List (Nat × Nat) × (Nat → Nat) :=
  let st := scan_kevents pipeFd kevents ⟨acc0, [], false⟩
  run_callbacks st.events_this_loop st.io_handle_events

/-- Union of the translated event flags that the iteration's kevents carry
for handle h (signal-pipe events excluded). -/
def handle_union (pipeFd h : Nat) : List KEvent → Nat
  | [] => 0
  | kev :: rest =>
    if kev.ident = pipeFd then
      handle_union pipeFd h rest
    else if kev.udata = h then
      s_aws_event_flags_from_kevent kev ||| handle_union pipeFd h rest
    else
      handle_union pipeFd h rest

/-- C5: for every kernel event the flag translation yields ERROR alone if the
event carries the error marker; otherwise, for the readable filter, READABLE
exactly when the payload byte count is non-zero plus CLOSED exactly when the
end-of-file flag is set; and symmetrically for the writable filter, WRITABLE
exactly when the payload is non-zero plus CLOSED exactly when end-of-file is
set. -/
theorem claim_C5_event_flag_translation (kev : KEvent) :
    (kev.flags &&& EV_ERROR ≠ 0 →
      s_aws_event_flags_from_kevent kev = AWS_IO_EVENT_TYPE_ERROR) ∧
    (kev.flags &&& EV_ERROR = 0 → kev.filter = EVFILT_READ →
      (s_aws_event_flags_from_kevent kev &&& AWS_IO_EVENT_TYPE_READABLE ≠ 0 ↔
        kev.data ≠ 0) ∧
      (s_aws_event_flags_from_kevent kev &&& AWS_IO_EVENT_TYPE_CLOSED ≠ 0 ↔
        kev.flags &&& EV_EOF ≠ 0) ∧
      s_aws_event_flags_from_kevent kev &&&
        (AWS_IO_EVENT_TYPE_WRITABLE ||| AWS_IO_EVENT_TYPE_ERROR) = 0) ∧
    (kev.flags &&& EV_ERROR = 0 → kev.filter = EVFILT_WRITE →
      (s_aws_event_flags_from_kevent kev &&& AWS_IO_EVENT_TYPE_WRITABLE ≠ 0 ↔
        kev.data ≠ 0) ∧
      (s_aws_event_flags_from_kevent kev &&& AWS_IO_EVENT_TYPE_CLOSED ≠ 0 ↔
        kev.flags &&& EV_EOF ≠ 0) ∧
      s_aws_event_flags_from_kevent kev &&&
        (AWS_IO_EVENT_TYPE_READABLE ||| AWS_IO_EVENT_TYPE_ERROR) = 0) := by
  unfold s_aws_event_flags_from_kevent
  refine ⟨fun he => by simp [he], fun he hf => ?_, fun he hf => ?_⟩
  · rw [if_neg (by simp [he]), if_pos hf]
    by_cases hd : kev.data = 0 <;> by_cases heof : kev.flags &&& EV_EOF = 0 <;>
      simp [hd, heof, AWS_IO_EVENT_TYPE_READABLE, AWS_IO_EVENT_TYPE_WRITABLE,
        AWS_IO_EVENT_TYPE_CLOSED, AWS_IO_EVENT_TYPE_ERROR] <;>
      decide
  · rw [if_neg (by simp [he]), if_neg (by rw [hf]; decide), if_pos hf]
    by_cases hd : kev.data = 0 <;> by_cases heof : kev.flags &&& EV_EOF = 0 <;>
      simp [hd, heof, AWS_IO_EVENT_TYPE_READABLE, AWS_IO_EVENT_TYPE_WRITABLE,
        AWS_IO_EVENT_TYPE_CLOSED, AWS_IO_EVENT_TYPE_ERROR] <;>
      decide

/-- Witness for C5 at a concrete event: a readable-filter event with non-zero
payload and the end-of-file flag set reports the READABLE bit. -/
theorem claim_C5_witness :
    s_aws_event_flags_from_kevent ⟨4, EVFILT_READ, EV_EOF, 3, 9⟩ &&&
      AWS_IO_EVENT_TYPE_READABLE ≠ 0 :=
  ((claim_C5_event_flag_translation ⟨4, EVFILT_READ, EV_EOF, 3, 9⟩).2.1
    (by decide) (by decide)).1.mpr (by decide)

/-- C4: when the subscribe task's kernel registration does not fully succeed
(the change-list submission fails or some receipt carries a non-zero error
payload), the task submits a delete for every filter whose registration did
succeed, sets kernel_registered to false, and invokes the subscriber's
callback exactly once with the ERROR event flag; when every receipt succeeds
it sets kernel_registered to true and invokes no callback. -/
theorem claim_C4_subscribe_rollback (m : Nat) (prev : Bool)
    (kr : Option (List Int)) :
    (kr = none →
      (s_subscribe_task TaskStatus.runReady m prev kr).deletes = [] ∧
      (s_subscribe_task TaskStatus.runReady m prev kr).kevent_added_successfully = false ∧
      (s_subscribe_task TaskStatus.runReady m prev kr).callbacks =
        [AWS_IO_EVENT_TYPE_ERROR]) ∧
    (∀ receipts, kr = some receipts →
      ((∀ d ∈ receipts, d = 0) →
        (s_subscribe_task TaskStatus.runReady m prev kr).kevent_added_successfully = true ∧
        (s_subscribe_task TaskStatus.runReady m prev kr).callbacks = [] ∧
        (s_subscribe_task TaskStatus.runReady m prev kr).deletes = []) ∧
      ((∃ d ∈ receipts, d ≠ 0) →
        (s_subscribe_task TaskStatus.runReady m prev kr).deletes =
          succeeded_filters (changelist_filters m) receipts ∧
        (s_subscribe_task TaskStatus.runReady m prev kr).kevent_added_successfully = false ∧
        (s_subscribe_task TaskStatus.runReady m prev kr).callbacks =
          [AWS_IO_EVENT_TYPE_ERROR])) := by
  refine ⟨?_, ?_⟩
  · rintro rfl
    simp [s_subscribe_task]
  · rintro receipts rfl
    constructor
    · intro hall
      have hb : (receipts.all fun d => d = 0) = true := by
        simp only [List.all_eq_true, decide_eq_true_eq]
        exact hall
      simp [s_subscribe_task, hb]
    · rintro ⟨d, hd, hdne⟩
      have hb : ¬((receipts.all fun x => x = 0) = true) := by
        simp only [List.all_eq_true, decide_eq_true_eq]
        push_neg
        exact ⟨d, hd, hdne⟩
      simp [s_subscribe_task, hb]

/-- Witness for C4 at concrete inputs: subscribed for both filters, the read
registration succeeds (receipt 0) and the write registration fails (receipt
5); the task deletes the read filter and makes one ERROR callback. -/
theorem claim_C4_witness :
    (s_subscribe_task TaskStatus.runReady 3 false (some [0, 5])).deletes =
      [Filter.read] ∧
    (s_subscribe_task TaskStatus.runReady 3 false (some [0, 5])).callbacks =
      [AWS_IO_EVENT_TYPE_ERROR] := by
  have h := ((claim_C4_subscribe_rollback 3 false (some [0, 5])).2 [0, 5] rfl).2
    ⟨5, by decide, by decide⟩
  refine ⟨?_, h.2.2⟩
  rw [h.1]
  decide

/-- C7: the unsubscribe task always decrements connected_handle_count; it
submits a kernel delete change list for all subscribed filters exactly when
its status is normal and the subscription is kernel-registered; and it frees
the Subscription Record unconditionally. -/
theorem claim_C7_unsubscribe_task (status : TaskStatus) (m : Nat) (added : Bool) :
    (s_unsubscribe_task status m added).connected_handle_count_delta = -1 ∧
    (status = TaskStatus.runReady ∧ added = true →
      (s_unsubscribe_task status m added).deletes = changelist_filters m) ∧
    (¬(status = TaskStatus.runReady ∧ added = true) →
      (s_unsubscribe_task status m added).deletes = []) ∧
    (s_unsubscribe_task status m added).freed = true := by
  cases status <;> cases added <;> simp [s_unsubscribe_task]

/-- Witness for C7 at a concrete input: a normally-run task of a registered
subscription for both filters deletes both filters. -/
theorem claim_C7_witness :
    (s_unsubscribe_task TaskStatus.runReady 3 true).deletes =
      [Filter.read, Filter.write] := by
  have h := (claim_C7_unsubscribe_task TaskStatus.runReady 3 true).2.1 ⟨rfl, rfl⟩
  rw [h]; decide

/-- C8: stop always returns success and is idempotent; from Running it moves
the inbox state to Stopping, marks the thread signaled, leaves the pending
tasks untouched, and writes the pipe exactly when thread_signaled was
previously false; from any other state it changes nothing and writes
nothing. -/
theorem claim_C8_stop (c : CrossThreadData) :
    (s_stop c).ret = AWS_OP_SUCCESS ∧
    (c.state = EventThreadState.running →
      (s_stop c).cross.state = EventThreadState.stopping ∧
      (s_stop c).cross.thread_signaled = true ∧
      (s_stop c).cross.tasks_to_schedule = c.tasks_to_schedule ∧
      (s_stop c).pipe_written = !c.thread_signaled) ∧
    (c.state ≠ EventThreadState.running →
      (s_stop c).cross = c ∧ (s_stop c).pipe_written = false) ∧
    s_stop (s_stop c).cross =
      { cross := (s_stop c).cross, pipe_written := false, ret := AWS_OP_SUCCESS } := by
  by_cases hc : c.state = EventThreadState.running <;>
    simp [s_stop, hc]

/-- Witness for C8 at a concrete inbox: stopping a running, not-yet-signaled
loop writes the signal pipe and moves the state to Stopping. -/
theorem claim_C8_witness :
    (s_stop ⟨false, [4], EventThreadState.running⟩).cross.state =
        EventThreadState.stopping ∧
      (s_stop ⟨false, [4], EventThreadState.running⟩).pipe_written = true := by
  have h := (claim_C8_stop ⟨false, [4], EventThreadState.running⟩).2.1 rfl
  exact ⟨h.1, h.2.2.2⟩

/-- C9: every execution of the subscribe task increments
connected_handle_count, cancelled or not, every execution of the unsubscribe
task decrements it, cancelled or not, so a handle whose subscribe and
unsubscribe tasks both execute contributes a net change of zero — the balance
behind the assert(connected_handle_count == 0) in s_destroy. -/
theorem claim_C9_handle_count_balance (st1 st2 : TaskStatus) (m1 m2 : Nat)
    (prev added : Bool) (kr : Option (List Int)) :
    (s_subscribe_task st1 m1 prev kr).connected_handle_count_delta = 1 ∧
    (s_unsubscribe_task st2 m2 added).connected_handle_count_delta = -1 ∧
    (s_subscribe_task st1 m1 prev kr).connected_handle_count_delta +
        (s_unsubscribe_task st2 m2 added).connected_handle_count_delta = 0 := by
  cases st1 <;> cases kr <;>
    simp [s_subscribe_task, s_unsubscribe_task] <;> split <;> simp

/-- C10: unsubscribe_from_io_events resets additional_data to NULL
synchronously and returns success with the unsubscribe task merely scheduled
(no callback has run), so subscribe_to_io_events's precondition that
additional_data is NULL holds again immediately and a fresh subscribe on the
same handle succeeds. -/
theorem claim_C10_unsubscribe_reenables_subscribe (handle : IoHandle) (hd : Nat)
    (h : handle.additional_data = some hd) :
    s_unsubscribe_from_io_events handle =
      some { handle := { handle with additional_data := none },
             scheduled_unsubscribe_tasks := [hd],
             callbacks_run := [],
             ret := AWS_OP_SUCCESS } ∧
    ({ handle with additional_data := none } : IoHandle).additional_data = none ∧
    (∀ events newHd, handle.fd ≠ -1 →
      events &&& (AWS_IO_EVENT_TYPE_READABLE ||| AWS_IO_EVENT_TYPE_WRITABLE) ≠ 0 →
      s_subscribe_to_io_events { handle with additional_data := none } events false newHd =
        some { handle := { handle with additional_data := some newHd },
               scheduled_subscribe_tasks := [newHd],
               ret := AWS_OP_SUCCESS }) := by
  refine ⟨?_, rfl, ?_⟩
  · simp [s_unsubscribe_from_io_events, h]
  · intro events newHd hfd hev
    simp [s_subscribe_to_io_events, hfd, hev]

/-- Witness for C10 at a concrete handle: after unsubscribing fd 5 with
attached record 7, additional_data is cleared and the call succeeds. -/
theorem claim_C10_witness :
    s_unsubscribe_from_io_events ⟨5, some 7⟩ =
      some { handle := ⟨5, none⟩, scheduled_unsubscribe_tasks := [7],
             callbacks_run := [], ret := AWS_OP_SUCCESS } :=
  (claim_C10_unsubscribe_reenables_subscribe ⟨5, some 7⟩ 7 rfl).1

/-- Counterexample to C3 as stated: started from Ready/Ready, at the moment
of the thread spawn only the inbox state copy has been written to Running;
the thread-private copy still reads Ready, so run does not write both copies
before spawning. -/
theorem claim_C3_counterexample :
    ¬ ((s_run_states_at_spawn ⟨EventThreadState.readyToRun, EventThreadState.readyToRun⟩).cross_state
          = EventThreadState.running ∧
       (s_run_states_at_spawn ⟨EventThreadState.readyToRun, EventThreadState.readyToRun⟩).thread_state
          = EventThreadState.running) := by
  decide

/-- C3 as amended: run writes only the inbox state copy to Running before
spawning the event thread (the thread-private copy still reads Ready at the
spawn; the spawned thread itself writes it); it fails when the current state
is not Ready (the asserts at lines 306-307); and when the thread spawn fails
it returns an error and restores the inbox state to Ready. -/
theorem claim_C3_run_amended (st : LoopStates) (spawnFails : Bool) :
    (st.cross_state = EventThreadState.readyToRun ∧
        st.thread_state = EventThreadState.readyToRun →
      (s_run_states_at_spawn st).cross_state = EventThreadState.running ∧
      (s_run_states_at_spawn st).thread_state = EventThreadState.readyToRun ∧
      (spawnFails = true →
        s_run st spawnFails =
          RunOutcome.spawnFailed ⟨EventThreadState.readyToRun, EventThreadState.readyToRun⟩) ∧
      (spawnFails = false →
        s_run st spawnFails =
          RunOutcome.success (s_run_states_at_spawn st) (s_run_states_at_spawn st))) ∧
    (¬(st.cross_state = EventThreadState.readyToRun ∧
        st.thread_state = EventThreadState.readyToRun) →
      s_run st spawnFails = RunOutcome.assertFailed) := by
  constructor
  · rintro ⟨h1, h2⟩
    refine ⟨by simp [s_run_states_at_spawn], by simp [s_run_states_at_spawn, h2], ?_, ?_⟩
    · rintro rfl
      simp [s_run, h1, h2, s_run_states_at_spawn, h2]
    · rintro rfl
      simp [s_run, h1, h2]
  · intro h
    simp [s_run, h]

/-- Witness for C3 at a concrete input: from Ready/Ready with a failing
spawn, run reports the spawn failure with the inbox state restored. -/
theorem claim_C3_witness :
    s_run ⟨EventThreadState.readyToRun, EventThreadState.readyToRun⟩ true =
      RunOutcome.spawnFailed ⟨EventThreadState.readyToRun, EventThreadState.readyToRun⟩ :=
  ((claim_C3_run_amended ⟨EventThreadState.readyToRun, EventThreadState.readyToRun⟩ true).1
    ⟨rfl, rfl⟩).2.2.1 rfl

/-- Counterexample to C1 as stated: with a healthy clock and a task due 200
seconds from now, the computed timeout is 200 s, which exceeds
DEFAULT_TIMEOUT (100 s) — the code does not cap the computed timeout at
DEFAULT_TIMEOUT. -/
theorem claim_C1_counterexample :
    ¬ ((compute_next_timeout false true 200000000000 0).tv_sec ≤ DEFAULT_TIMEOUT_SEC) := by
  decide

/-- C1 as amended: the timeout handed to the next multiplexer wait equals
max(0, nearest_deadline − now), with no cap at DEFAULT_TIMEOUT; if the clock
read fails or the scheduler reports no tasks, the timeout is exactly
DEFAULT_TIMEOUT (100 s, zero nanoseconds); and when the computed seconds
value exceeds LONG_MAX it is clamped to LONG_MAX with the nanosecond
remainder set to zero. -/
theorem claim_C1_timeout_amended (clockErr hasTasks : Bool) (next now : Nat) :
    (clockErr = true ∨ hasTasks = false →
      compute_next_timeout clockErr hasTasks next now = ⟨DEFAULT_TIMEOUT_SEC, 0⟩) ∧
    (clockErr = false → hasTasks = true → (next - now) / 1000000000 ≤ LONG_MAX →
      ((compute_next_timeout clockErr hasTasks next now).tv_sec : Int) * 1000000000 +
          ((compute_next_timeout clockErr hasTasks next now).tv_nsec : Int) =
        max 0 ((next : Int) - (now : Int)) ∧
      (compute_next_timeout clockErr hasTasks next now).tv_nsec < 1000000000) ∧
    (clockErr = false → hasTasks = true → LONG_MAX < (next - now) / 1000000000 →
      compute_next_timeout clockErr hasTasks next now = ⟨LONG_MAX, 0⟩) := by
  refine ⟨?_, ?_, ?_⟩
  · rintro (rfl | rfl) <;> simp [compute_next_timeout]
  · rintro rfl rfl hle
    have hsub : (if next > now then next - now else 0) = next - now := by
      split <;> omega
    have hred : compute_next_timeout false true next now =
        ⟨(next - now) / 1000000000, (next - now) % 1000000000⟩ := by
      simp only [compute_next_timeout, aws_timestamp_convert, hsub]
      rw [if_neg (by decide), if_neg (by omega)]
    rw [hred]
    dsimp only
    constructor
    · omega
    · exact Nat.mod_lt _ (by norm_num)
  · rintro rfl rfl hlt
    have hsub : (if next > now then next - now else 0) = next - now := by
      split <;> omega
    simp only [compute_next_timeout, aws_timestamp_convert, hsub]
    rw [if_neg (by decide), if_pos (by omega)]

/-- Witness for C1 at concrete inputs: a deadline 5 s and 7 ns past now
yields a 5 s, 7 ns timeout (recomposed as nanoseconds), and a failed clock
read yields the default timeout. -/
theorem claim_C1_witness :
    ((compute_next_timeout false true 5000000007 2 ).tv_sec : Int) * 1000000000 +
        ((compute_next_timeout false true 5000000007 2).tv_nsec : Int) =
      max 0 ((5000000007 : Int) - (2 : Int)) ∧
    compute_next_timeout true true 77 3 = ⟨DEFAULT_TIMEOUT_SEC, 0⟩ :=
  ⟨((claim_C1_timeout_amended false true 5000000007 2).2.1 rfl rfl (by decide)).1,
    (claim_C1_timeout_amended true true 77 3).1 (Or.inl rfl)⟩

/-- Forest sizes add over list append. -/
theorem forestSize_append (l₁ l₂ : List DTask) :
    forestSize (l₁ ++ l₂) = forestSize l₁ + forestSize l₂ := by
  induction l₁ with
  | nil => simp [forestSize]
  | cons t rest ih =>
    cases t with
    | mk i s =>
      simp only [List.cons_append, forestSize, ih]
      omega

/-- Identity lists distribute over forest append. -/
theorem allIds_append (l₁ l₂ : List DTask) :
    allIds (l₁ ++ l₂) = allIds l₁ ++ allIds l₂ := by
  induction l₁ with
  | nil => simp [allIds]
  | cons t rest ih =>
    cases t with
    | mk i s => simp [allIds, ih]

/-- The inbox drain of s_destroy invokes each task identity as often as it
occurs in the forest reachable from the pending tasks. -/
theorem drainInbox_count (l : List DTask) (i : Nat) :
    (drainInbox l).count i = (allIds l).count i := by
  induction l using drainInbox.induct with
  | case1 => simp [drainInbox, allIds]
  | case2 t rest ih =>
    obtain ⟨tid, ts⟩ := t
    rw [drainInbox]
    rw [allIds]
    simp only [DTask.id, DTask.spawns] at ih ⊢
    rw [List.count_cons, List.count_cons, ih, allIds_append, List.count_append,
      List.count_append]
    omega

/-- Cancel-all invokes the ids held by the scheduler; together with the
forests its cancelled tasks schedule, this accounts for every identity in
the scheduler's forest. -/
theorem cancel_all_count (l : List DTask) (i : Nat) :
    (cancel_all_ids l).count i + (allIds (cancel_all_spawns l)).count i =
      (allIds l).count i := by
  induction l with
  | nil => simp [cancel_all_ids, cancel_all_spawns, allIds]
  | cons t rest ih =>
    cases t with
    | mk tid ts =>
      rw [cancel_all_ids, cancel_all_spawns, allIds]
      simp only [DTask.id, DTask.spawns]
      rw [List.count_cons, List.count_cons, allIds_append, List.count_append,
        List.count_append]
      omega

/-- C2: destroy first calls stop and then wait_for_stop_completion; the
scheduler's cancel-all runs before the inbox drain and the inbox drain is
last (after it only task callbacks occur); every callback in the trace runs
with the cancellation status; and each task identity receives as many
callbacks as it occurs among the tasks submitted and not yet executed —
exactly one each when the identities are distinct. -/
theorem claim_C2_destroy_order (sched inbox : List DTask) :
    (∃ rest, s_destroy sched inbox false =
      DestroyEvent.stopCalled :: DestroyEvent.waitCalled :: rest) ∧
    (∃ pre post,
      s_destroy sched inbox false = pre ++ DestroyEvent.inboxDrainStart :: post ∧
      DestroyEvent.cancelAllStart ∈ pre ∧
      ∀ e ∈ post, ∃ i, e = DestroyEvent.callback i TaskStatus.canceled) ∧
    (∀ i st, DestroyEvent.callback i st ∈ s_destroy sched inbox false →
      st = TaskStatus.canceled) ∧
    (∀ i, (s_destroy sched inbox false).count (DestroyEvent.callback i TaskStatus.canceled) =
      (allIds sched ++ allIds inbox).count i) ∧
    ((allIds sched ++ allIds inbox).Nodup →
      ∀ i ∈ allIds sched ++ allIds inbox,
        (s_destroy sched inbox false).count
          (DestroyEvent.callback i TaskStatus.canceled) = 1) := by
  have hinj : Function.Injective fun i => DestroyEvent.callback i TaskStatus.canceled := by
    intro a b hab
    simpa using hab
  have hcount : ∀ i,
      (s_destroy sched inbox false).count
        (DestroyEvent.callback i TaskStatus.canceled) =
      (allIds sched ++ allIds inbox).count i := by
    intro i
    have hA : ([DestroyEvent.stopCalled, DestroyEvent.waitCalled,
        DestroyEvent.cancelAllStart] : List DestroyEvent).count
          (DestroyEvent.callback i TaskStatus.canceled) = 0 := by simp
    rw [s_destroy, if_neg (by simp)]
    rw [List.count_append, List.count_append, hA, List.count_cons_of_ne (by simp)]
    rw [List.count_map_of_injective _ _ hinj i, List.count_map_of_injective _ _ hinj i]
    rw [drainInbox_count, allIds_append]
    have hc := cancel_all_count sched i
    simp only [List.count_append] at *
    omega
  refine ⟨⟨_, by rw [s_destroy, if_neg (by simp)]; rfl⟩, ?_, ?_, hcount, ?_⟩
  · refine ⟨[DestroyEvent.stopCalled, DestroyEvent.waitCalled, DestroyEvent.cancelAllStart] ++
      (cancel_all_ids sched).map (fun i => DestroyEvent.callback i TaskStatus.canceled),
      (drainInbox (inbox ++ cancel_all_spawns sched)).map
        (fun i => DestroyEvent.callback i TaskStatus.canceled), ?_, by simp, ?_⟩
    · rw [s_destroy, if_neg (by simp), List.append_assoc]
    · intro e he
      obtain ⟨i, _, rfl⟩ := List.mem_map.mp he
      exact ⟨i, rfl⟩
  · intro i st hmem
    rw [s_destroy, if_neg (by simp)] at hmem
    simp only [List.mem_append, List.mem_cons, List.mem_map, List.not_mem_nil,
      or_false] at hmem
    rcases hmem with ((h | h | h) | ⟨j, _, h⟩) | h | ⟨j, _, h⟩ <;>
      first
        | (injection h with h1 h2; exact h2.symm)
        | (injection h)
  · intro hnd i hi
    rw [hcount i]
    exact List.count_eq_one_of_mem hnd hi

/-- Witness for C2 at concrete forests: with one scheduler task (id 1) whose
cancellation schedules task 2, and one pending inbox task (id 3), the
destroy trace invokes the transitively scheduled task 2 exactly once. -/
theorem claim_C2_witness :
    (s_destroy [DTask.mk 1 [DTask.mk 2 []]] [DTask.mk 3 []] false).count
      (DestroyEvent.callback 2 TaskStatus.canceled) = 1 := by
  have hids : allIds [DTask.mk 1 [DTask.mk 2 []]] ++ allIds [DTask.mk 3 []] =
      [1, 2, 3] := by
    simp [allIds]
  have h := (claim_C2_destroy_order [DTask.mk 1 [DTask.mk 2 []]] [DTask.mk 3 []]).2.2.2.2
  rw [hids] at h
  exact h (by decide) 2 (by decide)

/-- A bitwise or of naturals is zero exactly when both operands are. -/
theorem lor_eq_zero_iff (a b : Nat) : a ||| b = 0 ↔ a = 0 ∧ b = 0 := by
  constructor
  · intro h
    constructor
    · by_contra ha
      obtain ⟨i, hi⟩ := Nat.ne_zero_implies_bit_true ha
      have hb : (a ||| b).testBit i = true := by
        rw [Nat.testBit_lor, hi]
        simp
      rw [h] at hb
      simp at hb
    · by_contra hb'
      obtain ⟨i, hi⟩ := Nat.ne_zero_implies_bit_true hb'
      have hb : (a ||| b).testBit i = true := by
        rw [Nat.testBit_lor, hi]
        simp
      rw [h] at hb
      simp at hb
  · rintro ⟨rfl, rfl⟩
    rfl

/-- The scan loop accumulates, for every handle, the union of the translated
flags of its kevents on top of what the accumulator already held. -/
theorem scan_events_this_loop (pipeFd : Nat) (kevents : List KEvent) (st : ScanState)
    (h : Nat) :
    (scan_kevents pipeFd kevents st).events_this_loop h =
      st.events_this_loop h ||| handle_union pipeFd h kevents := by
  induction kevents generalizing st with
  | nil => simp [scan_kevents, handle_union]
  | cons kev rest ih =>
    by_cases hp : kev.ident = pipeFd
    · simp [scan_kevents, handle_union, hp, ih]
    · by_cases hz : s_aws_event_flags_from_kevent kev = 0
      · by_cases hu : kev.udata = h <;>
          simp [scan_kevents, handle_union, hp, hz, hu, ih]
      · by_cases hu : kev.udata = h
        · simp [scan_kevents, handle_union, hp, hz, hu, ih, Nat.lor_assoc]
        · have hu' : ¬(h = kev.udata) := fun hh => hu hh.symm
          simp [scan_kevents, handle_union, hp, hz, hu, hu', ih]

/-- The scan loop maintains the invariant that io_handle_events holds exactly
the handles whose accumulator is non-empty, each once. -/
theorem scan_io_handle_events_count (pipeFd : Nat) (kevents : List KEvent)
    (st : ScanState)
    (hinv : ∀ h, st.io_handle_events.count h =
      if st.events_this_loop h = 0 then 0 else 1) :
    ∀ h, (scan_kevents pipeFd kevents st).io_handle_events.count h =
      if (scan_kevents pipeFd kevents st).events_this_loop h = 0 then 0 else 1 := by
  induction kevents generalizing st with
  | nil => simpa [scan_kevents] using hinv
  | cons kev rest ih =>
    by_cases hp : kev.ident = pipeFd
    · rw [scan_kevents, if_pos hp]
      exact ih _ (by simpa using hinv)
    · by_cases hz : s_aws_event_flags_from_kevent kev = 0
      · rw [scan_kevents, if_neg hp]
        simp only [if_pos hz]
        exact ih _ hinv
      · rw [scan_kevents, if_neg hp]
        simp only [if_neg hz]
        refine ih _ ?_
        intro h
        by_cases hu : h = kev.udata
        · by_cases h0 : st.events_this_loop kev.udata = 0
          · simp [hu, h0, List.count_append, List.count_singleton, hinv,
              lor_eq_zero_iff, hz]
          · simp [hu, h0, hinv, lor_eq_zero_iff, hz]
        · have hu' : ¬(kev.udata = h) := fun hh => hu hh.symm
          by_cases h0 : st.events_this_loop kev.udata = 0
          · simp [hu, hu', h0, List.count_append, List.count_singleton, hinv]
          · simp [hu, hu', h0, hinv]

/-- The callback loop delivers one invocation per listed handle carrying the
accumulated flags at its turn, and zeroes each listed handle's accumulator. -/
theorem run_callbacks_spec (pending : List Nat) (acc : Nat → Nat)
    (hnd : pending.Nodup) :
    (run_callbacks acc pending).1 = pending.map (fun h => (h, acc h)) ∧
    ∀ x, (run_callbacks acc pending).2 x = if x ∈ pending then 0 else acc x := by
  induction pending generalizing acc with
  | nil => simp [run_callbacks]
  | cons h rest ih =>
    obtain ⟨hnotin, hrest⟩ := List.nodup_cons.mp hnd
    obtain ⟨ih1, ih2⟩ := ih (fun x => if x = h then 0 else acc x) hrest
    constructor
    · rw [run_callbacks]
      simp only [List.map_cons, ih1]
      refine congrArg _ (List.map_congr_left ?_)
      intro x hx
      have hxh : ¬(x = h) := fun hh => hnotin (hh ▸ hx)
      simp [hxh]
    · intro x
      rw [run_callbacks]
      simp only []
      rw [ih2 x]
      by_cases hx : x ∈ rest
      · simp [hx]
      · by_cases hxh : x = h
        · subst hxh
          simp [hx]
        · simp [hx, hxh]

/-- C6: within a single main-loop iteration, every subscribed handle whose
kernel events translate to at least one non-empty flag set receives exactly
one callback, that callback carries the bitwise union of all the handle's
translated flags for the iteration, and every events_this_loop accumulator is
empty again once the callback loop is done — provided the accumulators were
empty when the iteration began, the invariant the reset maintains. -/
theorem claim_C6_single_callback_fold (pipeFd : Nat) (kevents : List KEvent)
    (acc0 : Nat → Nat) (h0 : ∀ h, acc0 h = 0) :
    (∀ h, ((loop_iteration pipeFd kevents acc0).1.map Prod.fst).count h =
      if handle_union pipeFd h kevents = 0 then 0 else 1) ∧
    (∀ h fl, (h, fl) ∈ (loop_iteration pipeFd kevents acc0).1 →
      fl = handle_union pipeFd h kevents ∧ fl ≠ 0) ∧
    (∀ h, (loop_iteration pipeFd kevents acc0).2 h = 0) := by
  have hacc : ∀ h,
      (scan_kevents pipeFd kevents ⟨acc0, [], false⟩).events_this_loop h =
        handle_union pipeFd h kevents := by
    intro h
    rw [scan_events_this_loop]
    simp [h0 h]
  have hcnt : ∀ h,
      (scan_kevents pipeFd kevents ⟨acc0, [], false⟩).io_handle_events.count h =
        if handle_union pipeFd h kevents = 0 then 0 else 1 := by
    intro h
    rw [← hacc h]
    exact scan_io_handle_events_count pipeFd kevents ⟨acc0, [], false⟩
      (fun h' => by simp [h0 h']) h
  have hnd : (scan_kevents pipeFd kevents ⟨acc0, [], false⟩).io_handle_events.Nodup := by
    rw [List.nodup_iff_count_le_one]
    intro a
    rw [hcnt a]
    split <;> omega
  obtain ⟨hrc1, hrc2⟩ := run_callbacks_spec
    (scan_kevents pipeFd kevents ⟨acc0, [], false⟩).io_handle_events
    (scan_kevents pipeFd kevents ⟨acc0, [], false⟩).events_this_loop hnd
  have hmem : ∀ h,
      h ∈ (scan_kevents pipeFd kevents ⟨acc0, [], false⟩).io_handle_events ↔
        handle_union pipeFd h kevents ≠ 0 := by
    intro h
    rw [← List.count_pos_iff, hcnt h]
    split <;> simp_all
  have hli : loop_iteration pipeFd kevents acc0 =
      run_callbacks (scan_kevents pipeFd kevents ⟨acc0, [], false⟩).events_this_loop
        (scan_kevents pipeFd kevents ⟨acc0, [], false⟩).io_handle_events := rfl
  refine ⟨?_, ?_, ?_⟩
  · intro h
    rw [hli, hrc1, List.map_map]
    have hcomp : (Prod.fst ∘ fun h' => (h',
        (scan_kevents pipeFd kevents ⟨acc0, [], false⟩).events_this_loop h')) = id := rfl
    rw [hcomp, List.map_id]
    exact hcnt h
  · intro h fl hin
    rw [hli, hrc1] at hin
    obtain ⟨x, hx, hxe⟩ := List.mem_map.mp hin
    have hx1 : x = h := congrArg Prod.fst hxe
    have hx2 : (scan_kevents pipeFd kevents
        ⟨acc0, [], false⟩).events_this_loop x = fl := congrArg Prod.snd hxe
    constructor
    · rw [← hx2, hx1, hacc h]
    · rw [← hx2, hx1, hacc h]
      rw [hx1] at hx
      exact (hmem h).mp hx
  · intro h
    rw [hli, hrc2 h]
    by_cases hx : h ∈ (scan_kevents pipeFd kevents ⟨acc0, [], false⟩).io_handle_events
    · rw [if_pos hx]
    · rw [if_neg hx, hacc h]
      by_contra hne
      exact hx ((hmem h).mpr hne)

/-- Witness for C6 at concrete events: a handle (udata 5) that is
simultaneously readable and writable in one iteration gets exactly one
callback. -/
theorem claim_C6_witness :
    ((loop_iteration 0 [⟨7, EVFILT_READ, 0, 1, 5⟩, ⟨7, EVFILT_WRITE, 0, 1, 5⟩]
      (fun _ => 0)).1.map Prod.fst).count 5 = 1 := by
  have h := (claim_C6_single_callback_fold 0
    [⟨7, EVFILT_READ, 0, 1, 5⟩, ⟨7, EVFILT_WRITE, 0, 1, 5⟩]
    (fun _ => 0) (fun _ => rfl)).1 5
  rw [h]
  decide

end KqueueLoop
